import Mathlib

/-!
Shallow embedding of the LMS quiz backend (Express + Mongoose controllers in
`src/config/db.js`, schemas in `src/models/quizModel.js` and the result model).
Pure data is modelled with Lean structures, the MongoDB/GridFS state as explicit
lists threaded through the controller functions, and the external collaborators
(pdf-parse text extraction, the Groq LLM call) as oracle string parameters.
-/

namespace LMS

/-! ### JavaScript string primitives

The controllers use `String.prototype.trim`, `startsWith` and `slice` with a
negative end index, and template-literal interpolation of possibly-null values.
All inputs of interest are ASCII, so modelling JS strings as Lean `String`
(lists of characters) is faithful.  -/

/-- Whitespace recognised by `String.prototype.trim` (ASCII subset). -/
def jsWhitespaceChar (c : Char) : Bool :=
  c = ' ' || c = '\t' || c = '\n' || c = '\r' || c = '\x0b' || c = '\x0c'

/-- JS `s.trim()`. -/
def jsTrim (s : String) : String :=
  (((s.toList.dropWhile jsWhitespaceChar).reverse.dropWhile jsWhitespaceChar).reverse).asString

/-- JS `s.startsWith(p)`. -/
def jsStartsWith (s p : String) : Bool :=
  s.toList.take p.toList.length == p.toList

/-- JS `s.endsWith(p)`. -/
def jsEndsWith (s p : String) : Bool :=
  s.toList.drop (s.toList.length - p.toList.length) == p.toList

/-- JS `s.slice(start, -drop)`: characters from index `start` (clamped) up to
`max(length - drop, 0)`; empty when the range is inverted. -/
def jsSliceToNegEnd (s : String) (start drop : Nat) : String :=
  ((s.toList.take (s.toList.length - drop)).drop start).asString

/-- JS template interpolation of a possibly-absent string (`null` prints as
the four letters "null"). -/
def jsShowOpt : Option String → String
  | some s => s
  | none => "null"

/-! ### JSON values and `JSON.parse`

`generateQuizController` calls the JS builtin `JSON.parse` on the cleaned LLM
output.  We embed a recursive-descent parser for the JSON grammar (ECMA-404):
values, arrays, objects, strings with escapes, numbers, `true`/`false`/`null`,
with the four JSON whitespace characters skipped between tokens, and require
the whole input to be consumed.  Numeric lexemes are kept as strings: no claim
depends on numeric values. -/

inductive Json where
  | null
  | bool (b : Bool)
  | num (lexeme : String)
  | str (s : String)
  | arr (elems : List Json)
  | obj (fields : List (String × Json))

/-- JSON whitespace (ws in ECMA-404). -/
def jsonWsChar (c : Char) : Bool :=
  c = ' ' || c = '\t' || c = '\n' || c = '\r'

/-- Skip JSON whitespace. -/
def skipWs (cs : List Char) : List Char :=
  cs.dropWhile jsonWsChar

/-- Value of one hex digit. -/
def hexDigitVal (c : Char) : Option Nat :=
  if '0' ≤ c ∧ c ≤ '9' then some (c.toNat - '0'.toNat)
  else if 'a' ≤ c ∧ c ≤ 'f' then some (c.toNat - 'a'.toNat + 10)
  else if 'A' ≤ c ∧ c ≤ 'F' then some (c.toNat - 'A'.toNat + 10)
  else none

/-- Four hex digits of a `\u` escape. -/
def parseHex4 : List Char → Option (Nat × List Char)
  | a :: b :: c :: d :: rest =>
    match hexDigitVal a, hexDigitVal b, hexDigitVal c, hexDigitVal d with
    | some va, some vb, some vc, some vd => some ((((va * 16 + vb) * 16 + vc) * 16 + vd), rest)
    | _, _, _, _ => none
  | _ => none

/-- Body of a JSON string after the opening quote; returns the decoded
characters and the remainder after the closing quote. -/
def parseStringBody : Nat → List Char → Option (List Char × List Char)
  | 0, _ => none
  | _ + 1, [] => none
  | _ + 1, '"' :: rest => some ([], rest)
  | fuel + 1, '\\' :: esc :: rest =>
    (match esc with
     | '"' => some ('"', rest)
     | '\\' => some ('\\', rest)
     | '/' => some ('/', rest)
     | 'b' => some ('\x08', rest)
     | 'f' => some ('\x0c', rest)
     | 'n' => some ('\n', rest)
     | 'r' => some ('\r', rest)
     | 't' => some ('\t', rest)
     | 'u' =>
       match parseHex4 rest with
       | some (n, rest') => some (Char.ofNat n, rest')
       | none => none
     | _ => none).bind
      (fun cr : Char × List Char =>
        (parseStringBody fuel cr.2).map
          (fun p : List Char × List Char => (cr.1 :: p.1, p.2)))
  | fuel + 1, c :: rest =>
    if c.toNat < 32 then none
    else (parseStringBody fuel rest).map (fun p => (c :: p.1, p.2))

/-- Longest digit run. -/
def parseDigits (cs : List Char) : List Char × List Char :=
  (cs.takeWhile Char.isDigit, cs.dropWhile Char.isDigit)

/-- JSON integer part: `0` or a nonzero digit followed by digits. -/
def parseIntPart : List Char → Option (List Char × List Char)
  | '0' :: rest => some (['0'], rest)
  | c :: rest =>
    if c.isDigit then
      match parseDigits rest with
      | (ds, rest') => some (c :: ds, rest')
    else none
  | [] => none

/-- JSON optional fraction part. -/
def parseFracPart : List Char → Option (List Char × List Char)
  | '.' :: rest =>
    (match parseDigits rest with
     | ([], _) => none
     | (ds, rest') => some ('.' :: ds, rest'))
  | cs => some ([], cs)

/-- JSON optional exponent part. -/
def parseExpPart : List Char → Option (List Char × List Char)
  | c :: rest =>
    if c = 'e' ∨ c = 'E' then
      let signAndRest : List Char × List Char :=
        match rest with
        | '+' :: r => (['+'], r)
        | '-' :: r => (['-'], r)
        | r => ([], r)
      match parseDigits signAndRest.2 with
      | ([], _) => none
      | (ds, rest') => some (c :: signAndRest.1 ++ ds, rest')
    else some ([], c :: rest)
  | [] => some ([], [])

/-- JSON number token. -/
def parseNumber (cs : List Char) : Option (Json × List Char) :=
  let negAndRest : List Char × List Char :=
    match cs with
    | '-' :: r => (['-'], r)
    | r => ([], r)
  match parseIntPart negAndRest.2 with
  | none => none
  | some (ip, cs2) =>
    match parseFracPart cs2 with
    | none => none
    | some (fp, cs3) =>
      match parseExpPart cs3 with
      | none => none
      | some (ep, cs4) => some (.num (negAndRest.1 ++ ip ++ fp ++ ep).asString, cs4)

mutual

/-- One JSON value (after skipping leading whitespace). -/
def parseValue : Nat → List Char → Option (Json × List Char)
  | 0, _ => none
  | fuel + 1, cs =>
    match skipWs cs with
    | 'n' :: 'u' :: 'l' :: 'l' :: rest => some (.null, rest)
    | 't' :: 'r' :: 'u' :: 'e' :: rest => some (.bool true, rest)
    | 'f' :: 'a' :: 'l' :: 's' :: 'e' :: rest => some (.bool false, rest)
    | '"' :: rest =>
      (parseStringBody (rest.length + 1) rest).map (fun p => (.str p.1.asString, p.2))
    | '[' :: rest =>
      (match skipWs rest with
       | ']' :: rest' => some (.arr [], rest')
       | rest' => (parseElems fuel rest').map (fun p => (.arr p.1, p.2)))
    | '{' :: rest =>
      (match skipWs rest with
       | '}' :: rest' => some (.obj [], rest')
       | rest' => (parseMembers fuel rest').map (fun p => (.obj p.1, p.2)))
    | cs' => parseNumber cs'

/-- One or more comma-separated array elements, then the closing bracket. -/
def parseElems : Nat → List Char → Option (List Json × List Char)
  | 0, _ => none
  | fuel + 1, cs =>
    match parseValue fuel cs with
    | none => none
    | some (v, rest) =>
      match skipWs rest with
      | ',' :: rest' =>
        (match parseElems fuel rest' with
         | none => none
         | some (vs, rest'') => some (v :: vs, rest''))
      | ']' :: rest' => some ([v], rest')
      | _ => none

/-- One or more comma-separated object members, then the closing brace. -/
def parseMembers : Nat → List Char → Option (List (String × Json) × List Char)
  | 0, _ => none
  | fuel + 1, cs =>
    match skipWs cs with
    | '"' :: rest =>
      (match parseStringBody (rest.length + 1) rest with
       | none => none
       | some (key, rest1) =>
         match skipWs rest1 with
         | ':' :: rest2 =>
           (match parseValue fuel rest2 with
            | none => none
            | some (v, rest3) =>
              match skipWs rest3 with
              | ',' :: rest4 =>
                (match parseMembers fuel rest4 with
                 | none => none
                 | some (ms, rest5) => some ((key.asString, v) :: ms, rest5))
              | '}' :: rest4 => some ([(key.asString, v)], rest4)
              | _ => none)
         | _ => none)
    | _ => none

end

/-- JS `JSON.parse`: parse one value and require only whitespace to remain;
any failure models the thrown `SyntaxError`. -/
def jsonParse (s : String) : Option Json :=
  match parseValue (2 * s.toList.length + 2) s.toList with
  | some (v, rest) => if (skipWs rest).isEmpty then some v else none
  | none => none

/-! ### Data model (`src/models/quizModel.js`, result model)

MongoDB ObjectIds are modelled as opaque strings (the grading code compares
`_id.toString()` with submitted string ids, a bijective rendering), GridFS file
ids as naturals, timestamps as naturals. -/

/-- One multiple-choice question (`questionSchema`). -/
structure Question where
  _id : String
  questionText : String
  options : List String
  correctAnswer : String
deriving DecidableEq

/-- A quiz document (`quizSchema`); `title` is stored trimmed (`trim: true`). -/
structure Quiz where
  _id : String
  title : String
  topic : String
  sourceType : String
  sourceFilename : Option String
  sourceFileId : Option Nat
  questions : List Question
  createdAt : Nat
deriving DecidableEq

/-- One entry of a result's `submittedAnswers` breakdown (result model).
`isCorrect` is `Option Bool` because the controller computes it as
`userAnswerObj && userAnswerObj.answer === ...`, which is `undefined` when no
entry matched: `none` models that undefined value, which `JSON.stringify`
omits from the response body and mongoose leaves unset in the persisted
document, while `some b` models an actual boolean. -/
structure GradedAnswer where
  questionId : String
  questionText : String
  submittedAnswer : String
  correctAnswer : String
  isCorrect : Option Bool
deriving DecidableEq

/-- JS truthiness of an `isCorrect` value: `undefined` is falsy, a boolean is
its own truth value (`if (isCorrect) score++`). -/
def jsTruthy : Option Bool → Bool
  | some b => b
  | none => false

/-- A result document (`resultSchema`). -/
structure Result where
  _id : String
  quiz : String
  score : Nat
  totalQuestions : Nat
  submittedAnswers : List GradedAnswer
  createdAt : Nat
deriving DecidableEq

/-- A file stored in the GridFS `uploads` bucket. -/
structure StoredFile where
  fileId : Nat
  filename : String
  contentType : String
  content : List Nat
deriving DecidableEq

/-- The persistent state: quiz collection, result collection, GridFS bucket. -/
structure DbState where
  quizzes : List Quiz
  results : List Result
  files : List StoredFile
deriving DecidableEq

/-- An uploaded multipart file as multer presents it (`req.file`). -/
structure UploadedFile where
  originalname : String
  mimetype : String
  buffer : List Nat
deriving DecidableEq

/-- The fields of a generate request.  `title := ""` models an absent or empty
title (both falsy in `if (!title)`); `topic := none` models an absent topic
field.  `numQuestions` is only interpolated into the LLM prompt. -/
structure GenerateRequest where
  title : String
  numQuestions : Nat
  topic : Option String
  file : Option UploadedFile
deriving DecidableEq

/-! ### Response messages (verbatim from `db.js`) -/

def titleRequiredMsg : String := "A quiz title is required."

def sourceRequiredMsg : String :=
  "Please provide either a topic or a PDF file to generate the quiz."

def insufficientContextMsg : String :=
  "Could not find sufficient text from the provided sources to generate a quiz."

def parseFailureMsg : String := "Failed to parse AI response. The format was invalid."

def genServerErrorMsg : String :=
  "An error occurred on the server while generating the quiz."

def quizNotFoundMsg : String := "Quiz not found."

def noPdfMsg : String := "No PDF found for this quiz."

def pdfStreamErrorMsg : String := "Failed to retrieve PDF file."

def submitServerErrorMsg : String :=
  "An error occurred on the server while submitting the quiz."

def submitSuccessMsg : String := "Quiz submitted successfully!"

/-! ### generateQuizController -/

/-- The falsy-or-blank topic test `!topic || topic.trim().length === 0`. -/
def topicIsBlank : Option String → Bool
  | none => true
  | some t => t == "" || (jsTrim t).length == 0

/-- The truthy-and-non-blank topic test `topic && topic.trim().length > 0`. -/
def topicContributes : Option String → Bool
  | none => false
  | some t => t != "" && (jsTrim t).length > 0

/-- The topic part of the context string. -/
def topicContext (topic : Option String) : String :=
  if topicContributes topic then "Topic provided by user:\n" ++ (jsShowOpt topic) else ""

/-- The labelled separator inserted before extracted PDF text when a topic
already contributed. -/
def pdfSeparator (filename : String) : String :=
  "\n\n--- Content from uploaded PDF (" ++ filename ++ ") ---\n"

/-- The combined context string (`contextText` after both build steps);
`pdfText` is `pdfData.text` from the pdf-parse oracle, appended only when
truthy. -/
def fullContext (topic : Option String) (file : Option UploadedFile) (pdfText : String) :
    String :=
  let ctx := topicContext topic
  match file with
  | some f =>
    if pdfText != "" then
      ctx ++ (if ctx.length > 0 then pdfSeparator f.originalname else "") ++ pdfText
    else ctx
  | none => ctx

/-- The final `sourceType` value: `'text'` from a contributing topic, then
overwritten by the file branch with `'combined'` or `'pdf'`. -/
def finalSourceType (topic : Option String) (file : Option UploadedFile) : String :=
  let fromTopic := if topicContributes topic then "text" else ""
  match file with
  | some _ => if fromTopic == "text" then "combined" else "pdf"
  | none => fromTopic

/-- Markdown code-fence stripping exactly as coded: trim, then if the text
starts with ```json drop the first 7 and last 3 characters, else if it starts
with ``` drop the first 3 and last 3 — the trailing characters are removed
whether or not they are a fence. -/
def stripCodeFences (raw : String) : String :=
  let cleanedText := jsTrim raw
  if jsStartsWith cleanedText "```json" then jsSliceToNegEnd cleanedText 7 3
  else if jsStartsWith cleanedText "```" then jsSliceToNegEnd cleanedText 3 3
  else cleanedText

/-- Parse the cleaned LLM output and apply the
`!Array.isArray(questions) || questions.length === 0` guard; `none` models the
caught parse/validation error. -/
def parsedQuestions (llmText : String) : Option (List Json) :=
  match jsonParse (stripCodeFences llmText) with
  | some (.arr elems) => if elems.length == 0 then none else some elems
  | some _ => none
  | none => none

/-- Rightmost-wins field lookup on a parsed JSON object (`JSON.parse` keeps
the last duplicate key). -/
def lookupField (fields : List (String × Json)) (key : String) : Option Json :=
  (fields.reverse.find? (fun kv => kv.1 == key)).map (fun kv => kv.2)

/-- All elements must be JSON strings. -/
def asStringList : List Json → Option (List String)
  | [] => some []
  | .str s :: rest => (asStringList rest).map (fun ss => s :: ss)
  | _ => none

/-- Mongoose validation of one question subdocument on save: `questionText`
and `correctAnswer` required non-empty strings, `options` an array of strings
with `length > 1`; a violation aborts the save (surfaced as the generic 500).
Casting of non-string primitives is not exercised by any claim and is treated
as a validation failure. -/
def decodeQuestion (quizId : String) (idx : Nat) : Json → Option Question
  | .obj fields =>
    (match lookupField fields "questionText", lookupField fields "options",
           lookupField fields "correctAnswer" with
     | some (.str qt), some (.arr opts), some (.str ca) =>
       (match asStringList opts with
        | some os =>
          if qt != "" && decide (os.length > 1) && ca != "" then
            some ⟨quizId ++ "-q" ++ toString idx, qt, os, ca⟩
          else none
        | none => none)
     | _, _, _ => none)
  | _ => none

/-- Validate the whole parsed question array, assigning subdocument ids. -/
def decodeQuestions (quizId : String) : Nat → List Json → Option (List Question)
  | _, [] => some []
  | idx, j :: rest =>
    match decodeQuestion quizId idx j with
    | some q => (decodeQuestions quizId (idx + 1) rest).map (fun qs => q :: qs)
    | none => none

/-- The stored `topic` field: `topic || ` ++ the template fallback. -/
def quizTopicField (topic : Option String) (sourceFilename : Option String) : String :=
  match topic with
  | some t => if t == "" then "Content from " ++ jsShowOpt sourceFilename else t
  | none => "Content from " ++ jsShowOpt sourceFilename

/-- Outcome of a generate request: HTTP 400 / 500 with the JSON `message`, or
201 with the saved quiz. -/
inductive GenOutcome where
  | badRequest (message : String)
  | serverError (message : String)
  | created (quiz : Quiz)
deriving DecidableEq

/-- Mongoose validation of the quiz document itself on save: `title` is
trimmed and required non-empty, `topic` required non-empty, `sourceType`
restricted to the schema enum. -/
def saveQuiz (title topic sourceType : String) (sourceFilename : Option String)
    (sourceFileId : Option Nat) (questions : List Question) (freshQuizId : String)
    (now : Nat) (st : DbState) : GenOutcome × DbState :=
  if jsTrim title == "" then (.serverError genServerErrorMsg, st)
  else if topic == "" then (.serverError genServerErrorMsg, st)
  else if !(sourceType == "text" || sourceType == "pdf" || sourceType == "combined") then
    (.serverError genServerErrorMsg, st)
  else
    (.created
        ⟨freshQuizId, jsTrim title, topic, sourceType, sourceFilename, sourceFileId,
          questions, now⟩,
      { st with quizzes := st.quizzes ++
          [⟨freshQuizId, jsTrim title, topic, sourceType, sourceFilename, sourceFileId,
            questions, now⟩] })

/-- The generate pipeline after validation and the GridFS store of the PDF
(steps 2–5 of the controller): build the context, guard its trimmed length,
parse and validate the LLM output, and save the quiz.  The provenance fields
are those computed by the file branch: `sourceFilename`/`sourceFileId` are set
exactly when a file was uploaded. -/
def generateAfterStore (req : GenerateRequest) (pdfText llmText : String)
    (freshFileId : Nat) (freshQuizId : String) (now : Nat) (st1 : DbState) :
    GenOutcome × DbState :=
  if (jsTrim (fullContext req.topic req.file pdfText)).length < 50 then
    (.badRequest insufficientContextMsg, st1)
  else
    match parsedQuestions llmText with
    | none => (.serverError parseFailureMsg, st1)
    | some questionJson =>
      match decodeQuestions freshQuizId 0 questionJson with
      | none => (.serverError genServerErrorMsg, st1)
      | some questions =>
        saveQuiz req.title
          (quizTopicField req.topic (req.file.map (fun f => f.originalname)))
          (finalSourceType req.topic req.file)
          (req.file.map (fun f => f.originalname))
          (req.file.map (fun _ => freshFileId))
          questions freshQuizId now st1

/-- `generateQuizController` (`db.js` lines 185–307).  External collaborators
are oracle parameters: `pdfText` is what pdf-parse extracts from the uploaded
buffer, `llmText` the raw LLM response text; `freshFileId`, `freshQuizId` and
`now` stand for the generated identifiers and timestamp.  Step 1 stores the
PDF in GridFS before any later step can fail. -/
def generateQuizController (req : GenerateRequest) (pdfText llmText : String)
    (freshFileId : Nat) (freshQuizId : String) (now : Nat) (st : DbState) :
    GenOutcome × DbState :=
  if req.title == "" then (.badRequest titleRequiredMsg, st)
  else if req.file.isNone && topicIsBlank req.topic then
    (.badRequest sourceRequiredMsg, st)
  else
    generateAfterStore req pdfText llmText freshFileId freshQuizId now
      (match req.file with
       | some f =>
         { st with files := st.files ++ [⟨freshFileId, f.originalname, f.mimetype, f.buffer⟩] }
       | none => st)

/-! ### getQuizPdfController -/

/-- Outcome of a PDF request: 404, a download-stream error (500 after
headers), or the streamed bytes with their headers. -/
inductive PdfOutcome where
  | notFound (message : String)
  | streamError (message : String)
  | ok (contentType contentDisposition : String) (content : List Nat)
deriving DecidableEq

/-- `getQuizPdfController` (`db.js` lines 336–368). -/
def getQuizPdfController (quizId : String) (st : DbState) : PdfOutcome :=
  match st.quizzes.find? (fun q => q._id == quizId) with
  | none => .notFound quizNotFoundMsg
  | some quiz =>
    match quiz.sourceFileId with
    | none => .notFound noPdfMsg
    | some fid =>
      match st.files.find? (fun f => f.fileId == fid) with
      | none => .streamError pdfStreamErrorMsg
      | some f =>
        .ok "application/pdf"
          ("inline; filename=\"" ++ jsShowOpt quiz.sourceFilename ++ "\"") f.content

/-! ### getQuizForTakingController -/

/-- A question as projected for the student: the object literal keeps only
`_id`, `questionText` and `options` — there is no `correctAnswer` field. -/
structure QuestionForStudent where
  _id : String
  questionText : String
  options : List String
deriving DecidableEq

/-- The quiz as projected for the student. -/
structure QuizForStudent where
  _id : String
  title : String
  questions : List QuestionForStudent
deriving DecidableEq

/-- Outcome of a get-for-taking request. -/
inductive TakeOutcome where
  | notFound (message : String)
  | ok (quiz : QuizForStudent) (results : List Result)
deriving DecidableEq

/-- Insert into a list kept in descending `createdAt` order. -/
def insertByCreatedAtDesc (r : Result) : List Result → List Result
  | [] => [r]
  | x :: xs =>
    if x.createdAt ≤ r.createdAt then r :: x :: xs else x :: insertByCreatedAtDesc r xs

/-- The `.sort(\x7b createdAt: -1 \x7d)` of the result query: newest first. -/
def sortByCreatedAtDesc : List Result → List Result
  | [] => []
  | r :: rs => insertByCreatedAtDesc r (sortByCreatedAtDesc rs)

/-- `getQuizForTakingController` (`db.js` lines 376–412). -/
def getQuizForTakingController (quizId : String) (st : DbState) : TakeOutcome :=
  let results := sortByCreatedAtDesc (st.results.filter (fun r => r.quiz == quizId))
  match st.quizzes.find? (fun q => q._id == quizId) with
  | none => .notFound quizNotFoundMsg
  | some quiz =>
    .ok
      ⟨quiz._id, quiz.title,
        quiz.questions.map (fun q => ⟨q._id, q.questionText, q.options⟩)⟩
      results

/-! ### submitQuizController -/

/-- One entry of the submitted `answers` array. -/
structure SubmittedAnswerIn where
  questionId : String
  answer : String
deriving DecidableEq

/-- The response body of a successful submission. -/
structure SubmitResponseBody where
  message : String
  resultId : String
  score : Nat
  totalQuestions : Nat
  results : List GradedAnswer
deriving DecidableEq

/-- Outcome of a submit request. -/
inductive SubmitOutcome where
  | notFound (message : String)
  | serverError (message : String)
  | ok (body : SubmitResponseBody)
deriving DecidableEq

/-- Grade one question: sequential `find` over the submitted answers by
string-rendered question id; exact, case-sensitive answer comparison; the
literal sentinel "No Answer" when no entry matches.  In that branch the
code's `userAnswerObj && ...` is `undefined`, modelled as `none` — the
recorded `isCorrect` is absent, not `false`. -/
def gradeQuestionJs (userAnswers : List SubmittedAnswerIn) (q : Question) : GradedAnswer :=
  match userAnswers.find? (fun ans => ans.questionId == q._id) with
  | some a =>
    ⟨q._id, q.questionText, a.answer, q.correctAnswer, some (a.answer == q.correctAnswer)⟩
  | none => ⟨q._id, q.questionText, "No Answer", q.correctAnswer, none⟩

/-- The `quiz.questions.forEach` grading loop.  `answers = none` models a
request body whose `answers` is absent or not an array: the first iteration's
`userAnswers.find` then throws a TypeError (so a quiz with no questions never
dereferences it). -/
def gradeQuestionsJs : List Question → Option (List SubmittedAnswerIn) →
    Option (List GradedAnswer)
  | [], _ => some []
  | _ :: _, none => none
  | q :: qs, some userAnswers =>
    (gradeQuestionsJs qs (some userAnswers)).map
      (fun ds => gradeQuestionJs userAnswers q :: ds)

/-- `submitQuizController` (`db.js` lines 420–474). -/
def submitQuizController (quizId : String) (answers : Option (List SubmittedAnswerIn))
    (freshResultId : String) (now : Nat) (st : DbState) : SubmitOutcome × DbState :=
  match st.quizzes.find? (fun q => q._id == quizId) with
  | none => (.notFound quizNotFoundMsg, st)
  | some quiz =>
    match gradeQuestionsJs quiz.questions answers with
    | none => (.serverError submitServerErrorMsg, st)
    | some detailedResults =>
      let score := detailedResults.countP (fun d => jsTruthy d.isCorrect)
      let newResult : Result :=
        ⟨freshResultId, quizId, score, quiz.questions.length, detailedResults, now⟩
      (.ok ⟨submitSuccessMsg, freshResultId, score, quiz.questions.length, detailedResults⟩,
        { st with results := st.results ++ [newResult] })


/-! ### Helper lemmas -/

theorem insertByCreatedAtDesc_perm (r : Result) (l : List Result) :
    (insertByCreatedAtDesc r l).Perm (r :: l) := by
  induction l with
  | nil => simp [insertByCreatedAtDesc]
  | cons x xs ih =>
    unfold insertByCreatedAtDesc
    split
    · exact List.Perm.refl _
    · exact ((ih.cons x).trans (List.Perm.swap r x xs))

theorem sortByCreatedAtDesc_perm (l : List Result) :
    (sortByCreatedAtDesc l).Perm l := by
  induction l with
  | nil => simp [sortByCreatedAtDesc]
  | cons r rs ih =>
    exact (insertByCreatedAtDesc_perm r (sortByCreatedAtDesc rs)).trans (ih.cons r)

theorem pairwise_insertByCreatedAtDesc (r : Result) (l : List Result)
    (h : l.Pairwise (fun a b => b.createdAt ≤ a.createdAt)) :
    (insertByCreatedAtDesc r l).Pairwise (fun a b => b.createdAt ≤ a.createdAt) := by
  induction l with
  | nil => simp [insertByCreatedAtDesc]
  | cons x xs ih =>
    unfold insertByCreatedAtDesc
    rw [List.pairwise_cons] at h
    split
    · rename_i hle
      refine List.Pairwise.cons ?_ (List.Pairwise.cons h.1 h.2)
      intro y hy
      rcases List.mem_cons.mp hy with hyx | hyxs
      · exact hyx ▸ hle
      · exact le_trans (h.1 y hyxs) hle
    · rename_i hgt
      refine List.Pairwise.cons ?_ (ih h.2)
      intro y hy
      rcases List.mem_cons.mp ((insertByCreatedAtDesc_perm r xs).mem_iff.mp hy) with hyr | hyxs
      · exact hyr ▸ Nat.le_of_lt (Nat.lt_of_not_le hgt)
      · exact h.1 y hyxs
  -- note: mem_cons splits r :: xs into r or xs

theorem pairwise_sortByCreatedAtDesc (l : List Result) :
    (sortByCreatedAtDesc l).Pairwise (fun a b => b.createdAt ≤ a.createdAt) := by
  induction l with
  | nil => simp [sortByCreatedAtDesc]
  | cons r rs ih => exact pairwise_insertByCreatedAtDesc r _ ih

theorem gradeQuestionsJs_some (qs : List Question) (ua : List SubmittedAnswerIn) :
    gradeQuestionsJs qs (some ua) = some (qs.map (gradeQuestionJs ua)) := by
  induction qs with
  | nil => rfl
  | cons q qs ih => simp [gradeQuestionsJs, ih]

theorem gradeQuestionJs_correctAnswer (ua : List SubmittedAnswerIn) (q : Question) :
    (gradeQuestionJs ua q).correctAnswer = q.correctAnswer := by
  unfold gradeQuestionJs
  split <;> rfl

theorem submit_ok_inv (quizId : String) (answers : Option (List SubmittedAnswerIn))
    (frid : String) (now : Nat) (st : DbState) (body : SubmitResponseBody) (st' : DbState)
    (h : submitQuizController quizId answers frid now st = (.ok body, st')) :
    ∃ quiz detailed,
      st.quizzes.find? (fun q => q._id == quizId) = some quiz ∧
      gradeQuestionsJs quiz.questions answers = some detailed ∧
      body = ⟨submitSuccessMsg, frid, detailed.countP (fun d => jsTruthy d.isCorrect),
        quiz.questions.length, detailed⟩ ∧
      st' = { st with results := st.results ++
        [⟨frid, quizId, detailed.countP (fun d => jsTruthy d.isCorrect), quiz.questions.length,
          detailed, now⟩] } := by
  unfold submitQuizController at h
  split at h
  · exact absurd h (by simp)
  · rename_i quiz hfind
    split at h
    · exact absurd h (by simp)
    · rename_i detailed hgrade
      refine ⟨quiz, detailed, hfind, hgrade, ?_, ?_⟩
      · have := congrArg Prod.fst h
        simpa using this.symm
      · have := congrArg Prod.snd h
        simpa using this.symm


theorem gradeQuestionsJs_map_correctAnswer (qs : List Question)
    (answers : Option (List SubmittedAnswerIn)) (ds : List GradedAnswer)
    (h : gradeQuestionsJs qs answers = some ds) :
    ds.map (fun d => d.correctAnswer) = qs.map (fun q => q.correctAnswer) := by
  induction qs generalizing ds with
  | nil =>
    have h' : some ([] : List GradedAnswer) = some ds := by
      rw [← h]; cases answers <;> rfl
    cases h'
    rfl
  | cons q qs ih =>
    cases answers with
    | none => simp [gradeQuestionsJs] at h
    | some ua =>
      simp only [gradeQuestionsJs] at h
      cases hg : gradeQuestionsJs qs (some ua) with
      | none => rw [hg] at h; simp at h
      | some ds' =>
        rw [hg] at h
        have h2 : gradeQuestionJs ua q :: ds' = ds := by simpa using h
        subst h2
        simp [ih ds' hg, gradeQuestionJs_correctAnswer]

/-- C10: if the request body lacks a usable `answers` array and the quiz
exists with at least one question, submission fails with the generic HTTP 500
and the stored state is unchanged: no Result document is persisted. -/
theorem c10_submit_missing_answers_is_500 (st : DbState) (quizId : String) (quiz : Quiz)
    (frid : String) (now : Nat)
    (hq : st.quizzes.find? (fun q => q._id == quizId) = some quiz)
    (hne : quiz.questions ≠ []) :
    submitQuizController quizId none frid now st
      = (.serverError submitServerErrorMsg, st) := by
  obtain ⟨q, qs, hqs⟩ := List.exists_cons_of_ne_nil hne
  simp only [submitQuizController, hq, hqs, gradeQuestionsJs]

/-- C10 witness: a concrete quiz with one question, submitted without an
answers array. -/
theorem c10_submit_missing_answers_is_500_witness :
    submitQuizController "z1" none "r1" 1
        ⟨[⟨"z1", "T", "top", "text", none, none, [⟨"q1", "Q?", ["A", "B"], "A"⟩], 0⟩], [], []⟩
      = (.serverError submitServerErrorMsg,
          ⟨[⟨"z1", "T", "top", "text", none, none, [⟨"q1", "Q?", ["A", "B"], "A"⟩], 0⟩], [], []⟩) := by
  exact c10_submit_missing_answers_is_500
    ⟨[⟨"z1", "T", "top", "text", none, none, [⟨"q1", "Q?", ["A", "B"], "A"⟩], 0⟩], [], []⟩
    "z1" ⟨"z1", "T", "top", "text", none, none, [⟨"q1", "Q?", ["A", "B"], "A"⟩], 0⟩
    "r1" 1 (by decide) (by decide)

/-- C1 fails as stated, on two points at one input.  Question q1 receives two
entries — the first wrong, the second exactly equal to the stored
`correctAnswer` — so the answer list does contain a matching, exactly-equal
entry (second conjunct) and the claim requires q1 correct and score 1; but the
code grades by the first matching entry only and records
`isCorrect := some false` with score 0 (first conjunct).  Question q2 receives
no entry: the claim says it is recorded with `isCorrect` false, but the code's
`userAnswerObj && ...` is `undefined` there, so no `isCorrect` value is
recorded at all (`none`, omitted from the JSON response and left unset in the
persisted document), and `none ≠ some false` (third conjunct). -/
theorem c1_counterexample :
    (submitQuizController "z1" (some [⟨"q1", "B"⟩, ⟨"q1", "A"⟩]) "r1" 1
        ⟨[⟨"z1", "T", "top", "text", none, none,
          [⟨"q1", "Q1?", ["A", "B"], "A"⟩, ⟨"q2", "Q2?", ["C", "D"], "C"⟩], 0⟩], [], []⟩).1
      = .ok ⟨submitSuccessMsg, "r1", 0, 2,
          [⟨"q1", "Q1?", "B", "A", some false⟩,
           ⟨"q2", "Q2?", "No Answer", "C", none⟩]⟩ ∧
    ([(⟨"q1", "B"⟩ : SubmittedAnswerIn), ⟨"q1", "A"⟩].any
        (fun a => a.questionId == "q1" && a.answer == "A")) = true ∧
    (none : Option Bool) ≠ some false := by
  exact ⟨by decide, by decide, by decide⟩

/-- C1 (amended): for every existing quiz and submitted answer list, each
question of the quiz is graded in stored order; a question counts as correct
iff the first entry of the answer list whose `questionId` matches the
question's id exists and its answer string is exactly (case-sensitively) equal
to the stored `correctAnswer` (later duplicate entries are ignored), and that
comparison result is recorded as its `isCorrect` boolean; questions with no
matching entry are recorded with `submittedAnswer` "No Answer" and with no
`isCorrect` value at all (the undefined result is omitted from the response
and left unset in the persisted document), counting as incorrect; the
returned and persisted score is the count of correct questions and
`totalQuestions` is the quiz's question count, regardless of how many answers
were submitted. -/
theorem c1_submit_grading_amended (st : DbState) (quizId : String) (quiz : Quiz)
    (ua : List SubmittedAnswerIn) (frid : String) (now : Nat)
    (hq : st.quizzes.find? (fun q => q._id == quizId) = some quiz) :
    ∃ saved st',
      submitQuizController quizId (some ua) frid now st
        = (.ok ⟨submitSuccessMsg, frid, saved.score, quiz.questions.length,
            saved.submittedAnswers⟩, st') ∧
      st'.quizzes = st.quizzes ∧
      st'.results = st.results ++ [saved] ∧
      saved.totalQuestions = quiz.questions.length ∧
      saved.score = quiz.questions.countP (fun q =>
        match ua.find? (fun a => a.questionId == q._id) with
        | some a => a.answer == q.correctAnswer
        | none => false) ∧
      List.Forall₂ (fun (q : Question) (d : GradedAnswer) =>
          d.questionId = q._id ∧ d.questionText = q.questionText ∧
          d.correctAnswer = q.correctAnswer ∧
          (match ua.find? (fun a => a.questionId == q._id) with
           | some a =>
             d.submittedAnswer = a.answer ∧ d.isCorrect = some (a.answer == q.correctAnswer)
           | none => d.submittedAnswer = "No Answer" ∧ d.isCorrect = none))
        quiz.questions saved.submittedAnswers := by
  refine ⟨⟨frid, quizId,
      (quiz.questions.map (gradeQuestionJs ua)).countP (fun d => jsTruthy d.isCorrect),
      quiz.questions.length, quiz.questions.map (gradeQuestionJs ua), now⟩,
    { st with results := st.results ++
        [⟨frid, quizId, (quiz.questions.map (gradeQuestionJs ua)).countP (fun d => jsTruthy d.isCorrect),
          quiz.questions.length, quiz.questions.map (gradeQuestionJs ua), now⟩] },
    ?_, rfl, rfl, rfl, ?_, ?_⟩
  · simp only [submitQuizController, hq, gradeQuestionsJs_some]
  · show (quiz.questions.map (gradeQuestionJs ua)).countP (fun d => jsTruthy d.isCorrect) = _
    rw [List.countP_map]
    refine List.countP_congr ?_
    intro q _
    simp only [Function.comp_apply, gradeQuestionJs]
    cases ua.find? (fun a => a.questionId == q._id) <;> simp [jsTruthy]
  · show List.Forall₂ _ quiz.questions (quiz.questions.map (gradeQuestionJs ua))
    rw [List.forall₂_map_right_iff, List.forall₂_same]
    intro q _
    simp only [gradeQuestionJs]
    cases hf : ua.find? (fun a => a.questionId == q._id) <;> simp [hf]

/-- C1 amended-theorem witness: the duplicate-answer instance, where the
first matching entry is wrong, grades the question incorrect with score 0. -/
theorem c1_submit_grading_amended_witness :
    ∃ saved st',
      submitQuizController "z1" (some [⟨"q1", "B"⟩, ⟨"q1", "A"⟩]) "r1" 1
          ⟨[⟨"z1", "T", "top", "text", none, none, [⟨"q1", "Q?", ["A", "B"], "A"⟩], 0⟩], [], []⟩
        = (.ok ⟨submitSuccessMsg, "r1", saved.score,
            (⟨"z1", "T", "top", "text", none, none, [⟨"q1", "Q?", ["A", "B"], "A"⟩],
              0⟩ : Quiz).questions.length, saved.submittedAnswers⟩, st') ∧
      st'.quizzes = [⟨"z1", "T", "top", "text", none, none, [⟨"q1", "Q?", ["A", "B"], "A"⟩], 0⟩] ∧
      st'.results = [] ++ [saved] ∧
      saved.totalQuestions =
        (⟨"z1", "T", "top", "text", none, none, [⟨"q1", "Q?", ["A", "B"], "A"⟩],
          0⟩ : Quiz).questions.length ∧
      saved.score = (⟨"z1", "T", "top", "text", none, none, [⟨"q1", "Q?", ["A", "B"], "A"⟩],
          0⟩ : Quiz).questions.countP (fun q =>
        match List.find? (fun a => a.questionId == q._id)
            [(⟨"q1", "B"⟩ : SubmittedAnswerIn), ⟨"q1", "A"⟩] with
        | some a => a.answer == q.correctAnswer
        | none => false) ∧
      List.Forall₂ (fun (q : Question) (d : GradedAnswer) =>
          d.questionId = q._id ∧ d.questionText = q.questionText ∧
          d.correctAnswer = q.correctAnswer ∧
          (match List.find? (fun a => a.questionId == q._id)
              [(⟨"q1", "B"⟩ : SubmittedAnswerIn), ⟨"q1", "A"⟩] with
           | some a =>
             d.submittedAnswer = a.answer ∧ d.isCorrect = some (a.answer == q.correctAnswer)
           | none => d.submittedAnswer = "No Answer" ∧ d.isCorrect = none))
        (⟨"z1", "T", "top", "text", none, none, [⟨"q1", "Q?", ["A", "B"], "A"⟩],
          0⟩ : Quiz).questions saved.submittedAnswers := by
  exact c1_submit_grading_amended
    ⟨[⟨"z1", "T", "top", "text", none, none, [⟨"q1", "Q?", ["A", "B"], "A"⟩], 0⟩], [], []⟩
    "z1" ⟨"z1", "T", "top", "text", none, none, [⟨"q1", "Q?", ["A", "B"], "A"⟩], 0⟩
    [⟨"q1", "B"⟩, ⟨"q1", "A"⟩] "r1" 1 (by decide)

/-- C9: a result persisted by a successful submission is returned verbatim by
getForTaking — in particular every `submittedAnswers[i].correctAnswer` snapshot
equals the quiz's stored correct answer — even though the quiz payload itself
carries only id, text and options per question. -/
theorem c9_results_expose_correct_answers (st : DbState) (quizId : String) (quiz : Quiz)
    (answers : Option (List SubmittedAnswerIn)) (frid : String) (now : Nat)
    (body : SubmitResponseBody) (st' : DbState)
    (hq : st.quizzes.find? (fun q => q._id == quizId) = some quiz)
    (hsub : submitQuizController quizId answers frid now st = (.ok body, st')) :
    ∃ rs saved,
      getQuizForTakingController quizId st'
        = .ok ⟨quiz._id, quiz.title,
            quiz.questions.map (fun q => ⟨q._id, q.questionText, q.options⟩)⟩ rs ∧
      saved ∈ rs ∧
      saved ∈ st'.results ∧
      saved._id = frid ∧
      saved.submittedAnswers.map (fun d => d.correctAnswer)
        = quiz.questions.map (fun q => q.correctAnswer) := by
  obtain ⟨quiz₀, detailed, hq₀, hgrade, _, hst'⟩ :=
    submit_ok_inv quizId answers frid now st body st' hsub
  rw [hq] at hq₀
  injection hq₀ with hq₀eq
  subst hq₀eq
  subst hst'
  set saved : Result := ⟨frid, quizId, detailed.countP (fun d => jsTruthy d.isCorrect),
    quiz.questions.length, detailed, now⟩ with hsaved
  refine ⟨sortByCreatedAtDesc ((st.results ++ [saved]).filter (fun r => r.quiz == quizId)),
    saved, ?_, ?_, ?_, ?_, ?_⟩
  · simp only [getQuizForTakingController, hq]
  · refine ((sortByCreatedAtDesc_perm _).mem_iff).mpr ?_
    refine List.mem_filter.mpr ⟨?_, ?_⟩
    · simp
    · simp [hsaved]
  · simp
  · simp [hsaved]
  · rw [hsaved]
    exact gradeQuestionsJs_map_correctAnswer quiz.questions answers detailed hgrade



/-- C6: for every quiz id, getForTaking returns the quiz projected to id,
title and questions, each question carrying only its id, text and options
(the student payload type has no `correctAnswer` field at all), together with
the quiz's stored results sorted newest first; it returns 404 Quiz not found
when no quiz has that id. -/
theorem c6_get_for_taking_projects_and_sorts (quizId : String) (st : DbState) :
    (st.quizzes.find? (fun q => q._id == quizId) = none →
      getQuizForTakingController quizId st = .notFound quizNotFoundMsg) ∧
    (∀ quiz, st.quizzes.find? (fun q => q._id == quizId) = some quiz →
      ∃ rs,
        getQuizForTakingController quizId st
          = .ok ⟨quiz._id, quiz.title,
              quiz.questions.map (fun q => ⟨q._id, q.questionText, q.options⟩)⟩ rs ∧
        rs.Pairwise (fun a b => b.createdAt ≤ a.createdAt) ∧
        rs.Perm (st.results.filter (fun r => r.quiz == quizId))) := by
  constructor
  · intro h
    simp only [getQuizForTakingController, h]
  · intro quiz h
    exact ⟨sortByCreatedAtDesc (st.results.filter (fun r => r.quiz == quizId)),
      by simp only [getQuizForTakingController, h],
      pairwise_sortByCreatedAtDesc _,
      sortByCreatedAtDesc_perm _⟩

/-- C6 witness: a quiz with one question and two stored results arriving out
of creation order. -/
theorem c6_get_for_taking_projects_and_sorts_witness :
    ∃ rs,
      getQuizForTakingController "z1"
          ⟨[⟨"z1", "T", "top", "text", none, none, [⟨"q1", "Q?", ["A", "B"], "A"⟩], 0⟩],
            [⟨"r1", "z1", 1, 1, [], 5⟩, ⟨"r2", "z1", 0, 1, [], 9⟩, ⟨"r3", "zz", 1, 1, [], 7⟩],
            []⟩
        = .ok ⟨(⟨"z1", "T", "top", "text", none, none, [⟨"q1", "Q?", ["A", "B"], "A"⟩],
              0⟩ : Quiz)._id,
            (⟨"z1", "T", "top", "text", none, none, [⟨"q1", "Q?", ["A", "B"], "A"⟩],
              0⟩ : Quiz).title,
            (⟨"z1", "T", "top", "text", none, none, [⟨"q1", "Q?", ["A", "B"], "A"⟩],
              0⟩ : Quiz).questions.map (fun q => ⟨q._id, q.questionText, q.options⟩)⟩ rs ∧
      rs.Pairwise (fun a b => b.createdAt ≤ a.createdAt) ∧
      rs.Perm (List.filter (fun r => r.quiz == "z1")
        [⟨"r1", "z1", 1, 1, [], 5⟩, ⟨"r2", "z1", 0, 1, [], 9⟩, ⟨"r3", "zz", 1, 1, [], 7⟩]) := by
  exact (c6_get_for_taking_projects_and_sorts "z1"
      ⟨[⟨"z1", "T", "top", "text", none, none, [⟨"q1", "Q?", ["A", "B"], "A"⟩], 0⟩],
        [⟨"r1", "z1", 1, 1, [], 5⟩, ⟨"r2", "z1", 0, 1, [], 9⟩, ⟨"r3", "zz", 1, 1, [], 7⟩],
        []⟩).2
    ⟨"z1", "T", "top", "text", none, none, [⟨"q1", "Q?", ["A", "B"], "A"⟩], 0⟩ (by decide)



/-! ### Inversion of a successful generate -/

theorem saveQuiz_created_inv (title topic sourceType : String)
    (sourceFilename : Option String) (sourceFileId : Option Nat)
    (questions : List Question) (fqid : String) (now : Nat) (st : DbState)
    (quiz : Quiz) (st' : DbState)
    (h : saveQuiz title topic sourceType sourceFilename sourceFileId questions fqid now st
      = (.created quiz, st')) :
    quiz = ⟨fqid, jsTrim title, topic, sourceType, sourceFilename, sourceFileId,
      questions, now⟩ ∧
    st' = { st with quizzes := st.quizzes ++ [quiz] } := by
  unfold saveQuiz at h
  split at h
  · exact absurd h (by simp)
  split at h
  · exact absurd h (by simp)
  split at h
  · exact absurd h (by simp)
  have h1 := congrArg Prod.fst h
  have h2 := congrArg Prod.snd h
  simp only at h1 h2
  have hq : quiz = ⟨fqid, jsTrim title, topic, sourceType, sourceFilename, sourceFileId,
      questions, now⟩ := by
    cases h1
    rfl
  exact ⟨hq, by rw [← h2, hq]⟩

theorem generateAfterStore_created_inv (req : GenerateRequest) (pdfText llmText : String)
    (ffid : Nat) (fqid : String) (now : Nat) (st1 : DbState) (quiz : Quiz) (st' : DbState)
    (h : generateAfterStore req pdfText llmText ffid fqid now st1 = (.created quiz, st')) :
    quiz = ⟨fqid, jsTrim req.title,
      quizTopicField req.topic (req.file.map (fun f => f.originalname)),
      finalSourceType req.topic req.file,
      req.file.map (fun f => f.originalname),
      req.file.map (fun _ => ffid),
      quiz.questions, now⟩ ∧
    st' = { st1 with quizzes := st1.quizzes ++ [quiz] } := by
  unfold generateAfterStore at h
  split at h
  · exact absurd h (by simp)
  split at h
  · exact absurd h (by simp)
  split at h
  · exact absurd h (by simp)
  rename_i questions hdec
  obtain ⟨hq, hst⟩ := saveQuiz_created_inv _ _ _ _ _ _ _ _ _ _ _ h
  constructor
  · rw [hq]
  · exact hst

theorem generate_created_inv (req : GenerateRequest) (pdfText llmText : String)
    (ffid : Nat) (fqid : String) (now : Nat) (st : DbState) (quiz : Quiz) (st' : DbState)
    (h : generateQuizController req pdfText llmText ffid fqid now st = (.created quiz, st')) :
    (req.title == "") = false ∧
    (req.file.isNone && topicIsBlank req.topic) = false ∧
    quiz = ⟨fqid, jsTrim req.title,
      quizTopicField req.topic (req.file.map (fun f => f.originalname)),
      finalSourceType req.topic req.file,
      req.file.map (fun f => f.originalname),
      req.file.map (fun _ => ffid),
      quiz.questions, now⟩ ∧
    st' = { st with
      files := (match req.file with
        | some f => st.files ++ [⟨ffid, f.originalname, f.mimetype, f.buffer⟩]
        | none => st.files),
      quizzes := st.quizzes ++ [quiz] } := by
  unfold generateQuizController at h
  split at h
  · exact absurd h (by simp)
  split at h
  · exact absurd h (by simp)
  rename_i hT hS
  obtain ⟨hq, hst⟩ := generateAfterStore_created_inv _ _ _ _ _ _ _ _ _ h
  refine ⟨by simpa using hT, by simpa using hS, hq, ?_⟩
  rw [hst]
  cases req.file <;> rfl



theorem topicContributes_eq_not_blank (topic : Option String) :
    topicContributes topic = !topicIsBlank topic := by
  cases topic with
  | none => rfl
  | some t =>
    simp only [topicContributes, topicIsBlank, Bool.not_or, bne]
    congr 1
    cases h : (jsTrim t).length with
    | zero => simp
    | succ n => simp

/-- Sample LLM output used by concrete witness instances: one well-formed
question object. -/
def sampleLlmJson : String :=
  "[\x7b\"questionText\":\"What is X\",\"options\":[\"a\",\"b\"],\"correctAnswer\":\"a\"\x7d]"

/-- C2: generate rejects with HTTP 400 and the corresponding InvalidInput
message — leaving the stored state untouched — whenever the title is empty,
and whenever no file is uploaded and the topic is absent or blank after
trimming; the outcome does not depend on `pdfText` or `llmText` (both are
arbitrary here), so no external call is reflected in it. -/
theorem c2_generate_invalid_input (req : GenerateRequest) (pdfText llmText : String)
    (ffid : Nat) (fqid : String) (now : Nat) (st : DbState)
    (h : req.title = "" ∨ (req.file = none ∧ topicIsBlank req.topic = true)) :
    generateQuizController req pdfText llmText ffid fqid now st
      = (.badRequest (if req.title = "" then titleRequiredMsg else sourceRequiredMsg), st) := by
  by_cases ht : req.title = ""
  · simp [generateQuizController, ht]
  · rcases h with h | ⟨hf, hb⟩
    · exact absurd h ht
    · simp [generateQuizController, ht, hf, hb]

/-- C2 witness: an empty title is rejected with the title message. -/
theorem c2_generate_invalid_input_witness :
    generateQuizController ⟨"", 5, some "a perfectly long and reasonable topic", none⟩
        "p" "l" 0 "q" 0 ⟨[], [], []⟩
      = (.badRequest (if ("" : String) = "" then titleRequiredMsg else sourceRequiredMsg),
          ⟨[], [], []⟩) := by
  exact c2_generate_invalid_input ⟨"", 5, some "a perfectly long and reasonable topic", none⟩
    "p" "l" 0 "q" 0 ⟨[], [], []⟩ (Or.inl rfl)

/-- C3: a valid generate call whose combined context is shorter than 50
characters after trimming fails with the InsufficientContext message as HTTP
400 — for every LLM response text, since the LLM is never reached — and no
quiz is persisted. -/
theorem c3_generate_insufficient_context (req : GenerateRequest) (pdfText llmText : String)
    (ffid : Nat) (fqid : String) (now : Nat) (st : DbState)
    (hT : (req.title == "") = false)
    (hS : (req.file.isNone && topicIsBlank req.topic) = false)
    (hCtx : (jsTrim (fullContext req.topic req.file pdfText)).length < 50) :
    (generateQuizController req pdfText llmText ffid fqid now st).1
      = .badRequest insufficientContextMsg ∧
    (generateQuizController req pdfText llmText ffid fqid now st).2.quizzes = st.quizzes := by
  cases hf : req.file with
  | none =>
    rw [hf] at hCtx hS
    have hb : topicIsBlank req.topic = false := by simpa using hS
    simp [generateQuizController, generateAfterStore, hT, hf, hb, hCtx]
  | some f =>
    rw [hf] at hCtx
    simp [generateQuizController, generateAfterStore, hT, hf, hCtx]

/-- C3 witness: a short non-blank topic with no file ("Topic provided by
user:" plus the topic trims to fewer than 50 characters). -/
theorem c3_generate_insufficient_context_witness :
    (generateQuizController ⟨"T", 5, some "too short", none⟩ "" "whatever" 0 "q" 0
        ⟨[], [], []⟩).1
      = .badRequest insufficientContextMsg ∧
    (generateQuizController ⟨"T", 5, some "too short", none⟩ "" "whatever" 0 "q" 0
        ⟨[], [], []⟩).2.quizzes = [] := by
  exact c3_generate_insufficient_context ⟨"T", 5, some "too short", none⟩ "" "whatever"
    0 "q" 0 ⟨[], [], []⟩ (by decide) (by decide) (by decide)

/-- C4: every quiz persisted by generate satisfies the provenance invariant:
`sourceFileId` is set iff `sourceFilename` is set iff `sourceType` is `pdf`
or `combined`; moreover a call with no file yields `sourceType` `text` and no
`sourceFileId`, a call with a file and no contributing topic text yields
`pdf`, and a call with both yields `combined`. -/
theorem c4_generate_provenance (req : GenerateRequest) (pdfText llmText : String)
    (ffid : Nat) (fqid : String) (now : Nat) (st : DbState) (quiz : Quiz) (st' : DbState)
    (h : generateQuizController req pdfText llmText ffid fqid now st = (.created quiz, st')) :
    (quiz.sourceFileId.isSome = quiz.sourceFilename.isSome) ∧
    (quiz.sourceFileId.isSome = true ↔
      (quiz.sourceType = "pdf" ∨ quiz.sourceType = "combined")) ∧
    (req.file = none → quiz.sourceType = "text" ∧ quiz.sourceFileId = none) ∧
    (∀ f, req.file = some f → topicContributes req.topic = false →
      quiz.sourceType = "pdf") ∧
    (∀ f, req.file = some f → topicContributes req.topic = true →
      quiz.sourceType = "combined") := by
  obtain ⟨hT, hS, hq, hst⟩ := generate_created_inv _ _ _ _ _ _ _ _ _ h
  cases hf : req.file with
  | none =>
    rw [hf] at hq hS
    have hb : topicIsBlank req.topic = false := by simpa using hS
    have hcontrib : topicContributes req.topic = true := by
      rw [topicContributes_eq_not_blank, hb]
      rfl
    rw [hq]
    refine ⟨rfl, ?_, ?_, ?_, ?_⟩
    · simp [finalSourceType, hcontrib]
    · intro _
      simp [finalSourceType, hcontrib]
    · intro f' hff _
      simp at hff
    · intro f' hff _
      simp at hff
  | some f =>
    rw [hf] at hq
    rw [hq]
    by_cases hcontrib : topicContributes req.topic = true
    · refine ⟨rfl, ?_, ?_, ?_, ?_⟩
      · simp [finalSourceType, hcontrib]
      · intro hnone
        exact absurd hnone (by simp)
      · intro f' _ hnc
        rw [hcontrib] at hnc
        exact absurd hnc (by simp)
      · intro f' _ _
        simp [finalSourceType, hcontrib]
    · have hnc : topicContributes req.topic = false := by
        simpa using hcontrib
      refine ⟨rfl, ?_, ?_, ?_, ?_⟩
      · simp [finalSourceType, hnc]
      · intro hnone
        exact absurd hnone (by simp)
      · intro f' _ _
        simp [finalSourceType, hnc]
      · intro f' _ hc
        rw [hnc] at hc
        exact absurd hc (by simp)

/-- C4 witness: a call with only topic text creates a quiz and the invariant
conclusions hold for it. -/
theorem c4_generate_provenance_witness :
    ((⟨"qz1", "My Quiz", "The French Revolution and its causes in detail", "text", none,
        none, [⟨"qz1-q0", "What is X", ["a", "b"], "a"⟩], 10⟩ : Quiz).sourceFileId.isSome
      = (⟨"qz1", "My Quiz", "The French Revolution and its causes in detail", "text", none,
        none, [⟨"qz1-q0", "What is X", ["a", "b"], "a"⟩], 10⟩ : Quiz).sourceFilename.isSome) ∧
    ((⟨"qz1", "My Quiz", "The French Revolution and its causes in detail", "text", none,
        none, [⟨"qz1-q0", "What is X", ["a", "b"], "a"⟩], 10⟩ : Quiz).sourceFileId.isSome = true ↔
      ((⟨"qz1", "My Quiz", "The French Revolution and its causes in detail", "text", none,
        none, [⟨"qz1-q0", "What is X", ["a", "b"], "a"⟩], 10⟩ : Quiz).sourceType = "pdf" ∨
       (⟨"qz1", "My Quiz", "The French Revolution and its causes in detail", "text", none,
        none, [⟨"qz1-q0", "What is X", ["a", "b"], "a"⟩], 10⟩ : Quiz).sourceType = "combined")) ∧
    ((⟨"My Quiz", 5, some "The French Revolution and its causes in detail",
        none⟩ : GenerateRequest).file = none →
      (⟨"qz1", "My Quiz", "The French Revolution and its causes in detail", "text", none,
        none, [⟨"qz1-q0", "What is X", ["a", "b"], "a"⟩], 10⟩ : Quiz).sourceType = "text" ∧
      (⟨"qz1", "My Quiz", "The French Revolution and its causes in detail", "text", none,
        none, [⟨"qz1-q0", "What is X", ["a", "b"], "a"⟩], 10⟩ : Quiz).sourceFileId = none) ∧
    (∀ f, (⟨"My Quiz", 5, some "The French Revolution and its causes in detail",
        none⟩ : GenerateRequest).file = some f →
      topicContributes (some "The French Revolution and its causes in detail") = false →
      (⟨"qz1", "My Quiz", "The French Revolution and its causes in detail", "text", none,
        none, [⟨"qz1-q0", "What is X", ["a", "b"], "a"⟩], 10⟩ : Quiz).sourceType = "pdf") ∧
    (∀ f, (⟨"My Quiz", 5, some "The French Revolution and its causes in detail",
        none⟩ : GenerateRequest).file = some f →
      topicContributes (some "The French Revolution and its causes in detail") = true →
      (⟨"qz1", "My Quiz", "The French Revolution and its causes in detail", "text", none,
        none, [⟨"qz1-q0", "What is X", ["a", "b"], "a"⟩], 10⟩ : Quiz).sourceType = "combined") := by
  exact c4_generate_provenance
    ⟨"My Quiz", 5, some "The French Revolution and its causes in detail", none⟩
    "" sampleLlmJson 7 "qz1" 10 ⟨[], [], []⟩
    ⟨"qz1", "My Quiz", "The French Revolution and its causes in detail", "text", none,
      none, [⟨"qz1-q0", "What is X", ["a", "b"], "a"⟩], 10⟩
    ⟨[⟨"qz1", "My Quiz", "The French Revolution and its causes in detail", "text", none,
      none, [⟨"qz1-q0", "What is X", ["a", "b"], "a"⟩], 10⟩], [], []⟩
    (by decide)



/-- Modelled from the spec (for comparison with `stripCodeFences` only): the
spec's words say an *optional wrapper* — a leading fence *together with* the
trailing one — is stripped, so here a prefix/suffix pair is removed exactly
when both are present, and the text is untouched otherwise. -/
def stripCodeFencesSpec (raw : String) : String :=
  let cleanedText := jsTrim raw
  if jsStartsWith cleanedText "```json" && jsEndsWith cleanedText "```" then
    jsSliceToNegEnd cleanedText 7 3
  else if jsStartsWith cleanedText "```" && jsEndsWith cleanedText "```" then
    jsSliceToNegEnd cleanedText 3 3
  else cleanedText

theorem content_from_ne_empty (s : String) : ("Content from " ++ s) ≠ "" := by
  intro h
  have h2 : ("Content from " ++ s).length = 0 := by rw [h]; rfl
  rw [String.length_append] at h2
  have h13 : ("Content from " : String).length = 13 := rfl
  omega

/-- C7: a PDF uploaded in a successful generate call round-trips — the PDF
endpoint for the new quiz streams exactly the uploaded bytes, typed
`application/pdf`, under a Content-Disposition carrying the original
filename.  The freshness hypotheses say the generated quiz and file ids do
not collide with pre-existing documents, as with MongoDB ObjectIds. -/
theorem c7_pdf_round_trip (req : GenerateRequest) (pdfText llmText : String)
    (ffid : Nat) (fqid : String) (now : Nat) (st : DbState) (f : UploadedFile)
    (quiz : Quiz) (st' : DbState)
    (hfile : req.file = some f)
    (hgen : generateQuizController req pdfText llmText ffid fqid now st = (.created quiz, st'))
    (hFreshQ : ∀ q ∈ st.quizzes, q._id ≠ fqid)
    (hFreshF : ∀ g ∈ st.files, g.fileId ≠ ffid) :
    getQuizPdfController fqid st'
      = .ok "application/pdf" ("inline; filename=\"" ++ f.originalname ++ "\"") f.buffer := by
  obtain ⟨hT, hS, hq, hst⟩ := generate_created_inv _ _ _ _ _ _ _ _ _ hgen
  rw [hfile] at hq hst
  subst hst
  have hid : quiz._id = fqid := by rw [hq]
  have hsid : quiz.sourceFileId = some ffid := by rw [hq]; rfl
  have hsfn : quiz.sourceFilename = some f.originalname := by rw [hq]; rfl
  have hfindq : (st.quizzes ++ [quiz]).find? (fun q => q._id == fqid) = some quiz := by
    rw [List.find?_append]
    have h1 : st.quizzes.find? (fun q => q._id == fqid) = none :=
      List.find?_eq_none.mpr (fun q hqmem => by simp [hFreshQ q hqmem])
    rw [h1]
    simp [List.find?, hid]
  have hfindf : (st.files ++ [(⟨ffid, f.originalname, f.mimetype, f.buffer⟩ : StoredFile)]).find?
      (fun g => g.fileId == ffid) = some ⟨ffid, f.originalname, f.mimetype, f.buffer⟩ := by
    rw [List.find?_append]
    have h1 : st.files.find? (fun g => g.fileId == ffid) = none :=
      List.find?_eq_none.mpr (fun g hg => by simp [hFreshF g hg])
    rw [h1]
    simp [List.find?]
  simp only [getQuizPdfController, hfindq, hsid, hfindf, hsfn, jsShowOpt]

/-- C7 witness: a concrete four-byte PDF round-trips through generate and the
PDF endpoint. -/
theorem c7_pdf_round_trip_witness :
    getQuizPdfController "qz2"
        ⟨[⟨"qz2", "File Quiz", "Content from notes.pdf", "pdf", some "notes.pdf", some 7,
            [⟨"qz2-q0", "What is X", ["a", "b"], "a"⟩], 10⟩], [],
          [⟨7, "notes.pdf", "application/pdf", [37, 80, 68, 70]⟩]⟩
      = .ok "application/pdf" ("inline; filename=\"" ++ "notes.pdf" ++ "\"")
          [37, 80, 68, 70] := by
  exact c7_pdf_round_trip ⟨"File Quiz", 5, none, some ⟨"notes.pdf", "application/pdf", [37, 80, 68, 70]⟩⟩
    "This document describes the quarterly budget in great detail across pages."
    sampleLlmJson 7 "qz2" 10 ⟨[], [], []⟩ ⟨"notes.pdf", "application/pdf", [37, 80, 68, 70]⟩
    ⟨"qz2", "File Quiz", "Content from notes.pdf", "pdf", some "notes.pdf", some 7,
      [⟨"qz2-q0", "What is X", ["a", "b"], "a"⟩], 10⟩
    ⟨[⟨"qz2", "File Quiz", "Content from notes.pdf", "pdf", some "notes.pdf", some 7,
        [⟨"qz2-q0", "What is X", ["a", "b"], "a"⟩], 10⟩], [],
      [⟨7, "notes.pdf", "application/pdf", [37, 80, 68, 70]⟩]⟩
    rfl (by decide) (by simp) (by simp)

/-- C8 fails as stated: a whitespace-only topic is truthy in JavaScript, so a
quiz generated purely from a file (`sourceType` is `pdf`: the blank topic
contributed no text) still stores the user-supplied "   " verbatim instead of
the file-derived fallback description. -/
theorem c8_counterexample :
    (generateQuizController
        ⟨"T", 5, some "   ", some ⟨"notes.pdf", "application/pdf", [37, 80, 68, 70]⟩⟩
        "This document describes the quarterly budget in great detail across pages."
        sampleLlmJson 7 "qz3" 10 ⟨[], [], []⟩).1
      = .created ⟨"qz3", "T", "   ", "pdf", some "notes.pdf", some 7,
          [⟨"qz3-q0", "What is X", ["a", "b"], "a"⟩], 10⟩ ∧
    topicContributes (some "   ") = false ∧
    ("   " : String) ≠ "Content from notes.pdf" := by
  exact ⟨by decide, by decide, by decide⟩

/-- C8 (amended): every quiz persisted by generate has a non-empty `topic`
string, and whenever the submitted topic was absent or the empty string the
stored topic is the fallback "Content from " plus the uploaded file's name (a
file is then necessarily present); a whitespace-only topic, however, is
truthy and is stored verbatim even when the quiz was generated purely from the
file. -/
theorem c8_topic_field_amended (req : GenerateRequest) (pdfText llmText : String)
    (ffid : Nat) (fqid : String) (now : Nat) (st : DbState) (quiz : Quiz) (st' : DbState)
    (h : generateQuizController req pdfText llmText ffid fqid now st = (.created quiz, st')) :
    quiz.topic ≠ "" ∧
    ((req.topic = none ∨ req.topic = some "") →
      ∃ f, req.file = some f ∧ quiz.topic = "Content from " ++ f.originalname) := by
  obtain ⟨hT, hS, hq, hst⟩ := generate_created_inv _ _ _ _ _ _ _ _ _ h
  have htopic : quiz.topic
      = quizTopicField req.topic (req.file.map (fun g => g.originalname)) := by
    rw [hq]
  constructor
  · rw [htopic]
    cases ht : req.topic with
    | none =>
      exact content_from_ne_empty _
    | some t =>
      by_cases he : (t == "") = true
      · simp only [quizTopicField, he, if_true]
        exact content_from_ne_empty _
      · simp only [quizTopicField, he, if_false]
        simpa using he
  · intro htop
    have hblank : topicIsBlank req.topic = true := by
      rcases htop with h' | h' <;> simp [h', topicIsBlank]
    have hfile : req.file.isNone = false := by
      cases hio : req.file.isNone with
      | false => rfl
      | true => rw [hio, hblank] at hS; simp at hS
    obtain ⟨f, hf⟩ : ∃ f, req.file = some f := by
      cases hff : req.file with
      | none => rw [hff] at hfile; simp at hfile
      | some f => exact ⟨f, rfl⟩
    refine ⟨f, hf, ?_⟩
    rw [htopic, hf]
    rcases htop with h' | h' <;> simp [h', quizTopicField, jsShowOpt]

/-- C8 amended-theorem witness: a call with no topic and a file stores the
fallback topic. -/
theorem c8_topic_field_amended_witness :
    (⟨"qz2", "File Quiz", "Content from notes.pdf", "pdf", some "notes.pdf", some 7,
        [⟨"qz2-q0", "What is X", ["a", "b"], "a"⟩], 10⟩ : Quiz).topic ≠ "" ∧
    (((⟨"File Quiz", 5, none, some ⟨"notes.pdf", "application/pdf", [37, 80, 68, 70]⟩⟩ :
        GenerateRequest).topic = none ∨
      (⟨"File Quiz", 5, none, some ⟨"notes.pdf", "application/pdf", [37, 80, 68, 70]⟩⟩ :
        GenerateRequest).topic = some "") →
      ∃ f, (⟨"File Quiz", 5, none, some ⟨"notes.pdf", "application/pdf", [37, 80, 68, 70]⟩⟩ :
          GenerateRequest).file = some f ∧
        (⟨"qz2", "File Quiz", "Content from notes.pdf", "pdf", some "notes.pdf", some 7,
          [⟨"qz2-q0", "What is X", ["a", "b"], "a"⟩], 10⟩ : Quiz).topic
          = "Content from " ++ f.originalname) := by
  exact c8_topic_field_amended
    ⟨"File Quiz", 5, none, some ⟨"notes.pdf", "application/pdf", [37, 80, 68, 70]⟩⟩
    "This document describes the quarterly budget in great detail across pages."
    sampleLlmJson 7 "qz2" 10 ⟨[], [], []⟩
    ⟨"qz2", "File Quiz", "Content from notes.pdf", "pdf", some "notes.pdf", some 7,
      [⟨"qz2-q0", "What is X", ["a", "b"], "a"⟩], 10⟩
    ⟨[⟨"qz2", "File Quiz", "Content from notes.pdf", "pdf", some "notes.pdf", some 7,
        [⟨"qz2-q0", "What is X", ["a", "b"], "a"⟩], 10⟩], [],
      [⟨7, "notes.pdf", "application/pdf", [37, 80, 68, 70]⟩]⟩
    (by decide)



/-- C5 fails as stated: the code does not check for a trailing fence before
slicing.  On a response that starts with ``` but does not end with one, the
claim's stripping leaves the raw text, whose JSON parse fails, mandating
MalformedAiResponse (HTTP 500); the code instead slices 3 characters off both
ends, parses the interior successfully and answers 201 Created. -/
theorem c5_counterexample :
    (generateQuizController
        ⟨"T", 5, some "The French Revolution and its causes in detail", none⟩
        "" ("```" ++ sampleLlmJson ++ "xy!") 7 "qz5" 10 ⟨[], [], []⟩).1
      = .created ⟨"qz5", "T", "The French Revolution and its causes in detail", "text",
          none, none, [⟨"qz5-q0", "What is X", ["a", "b"], "a"⟩], 10⟩ ∧
    jsonParse (stripCodeFencesSpec ("```" ++ sampleLlmJson ++ "xy!")) = none ∧
    jsEndsWith (jsTrim ("```" ++ sampleLlmJson ++ "xy!")) "```" = false := by
  refine ⟨by decide, by rfl, by decide⟩

/-- C5 (amended): generate trims the raw LLM response and, when it starts
with ```json (resp. ```), removes its first 7 (resp. 3) and last 3 characters
without checking that a trailing fence is present — this agrees with
stripping an optional complete wrapper whenever the trimmed response does end
with ``` (second conjunct) — then parses the remainder as JSON; whenever that
parse fails or yields anything but a non-empty array, a valid generate call
fails with the fixed MalformedAiResponse message as HTTP 500 (the raw LLM
text is never part of the response) and no quiz is persisted (first conjunct). -/
theorem c5_malformed_ai_response_amended (req : GenerateRequest)
    (pdfText llmText : String) (ffid : Nat) (fqid : String) (now : Nat) (st : DbState) :
    (((req.title == "") = false) →
     ((req.file.isNone && topicIsBlank req.topic) = false) →
     (¬ (jsTrim (fullContext req.topic req.file pdfText)).length < 50) →
     (∀ elems, jsonParse (stripCodeFences llmText) = some (Json.arr elems) → elems = []) →
     (generateQuizController req pdfText llmText ffid fqid now st).1
        = .serverError parseFailureMsg ∧
     (generateQuizController req pdfText llmText ffid fqid now st).2.quizzes
        = st.quizzes) ∧
    (jsEndsWith (jsTrim llmText) "```" = true →
     stripCodeFences llmText = stripCodeFencesSpec llmText) := by
  constructor
  · intro hT hS hCtx hBad
    have hpq : parsedQuestions llmText = none := by
      unfold parsedQuestions
      cases hj : jsonParse (stripCodeFences llmText) with
      | none => rfl
      | some j =>
        cases j with
        | arr elems =>
          have helems := hBad elems hj
          subst helems
          rfl
        | null => rfl
        | bool b => rfl
        | num l => rfl
        | str s => rfl
        | obj fs => rfl
    cases hf : req.file with
    | none =>
      rw [hf] at hCtx hS
      have hb : topicIsBlank req.topic = false := by simpa using hS
      simp [generateQuizController, generateAfterStore, hT, hf, hb, hCtx, hpq]
    | some f =>
      rw [hf] at hCtx
      simp [generateQuizController, generateAfterStore, hT, hf, hCtx, hpq]
  · intro hEnds
    by_cases h7 : jsStartsWith (jsTrim llmText) "```json" = true
    · simp [stripCodeFences, stripCodeFencesSpec, h7, hEnds]
    · have h7f : jsStartsWith (jsTrim llmText) "```json" = false := by simpa using h7
      by_cases h3 : jsStartsWith (jsTrim llmText) "```" = true
      · simp [stripCodeFences, stripCodeFencesSpec, h7f, h3, hEnds]
      · have h3f : jsStartsWith (jsTrim llmText) "```" = false := by simpa using h3
        simp [stripCodeFences, stripCodeFencesSpec, h7f, h3f]

/-- C5 amended-theorem witness: a non-JSON response on a valid call gives the
fixed parse-failure message and persists nothing; and on a properly fenced
response the code's stripping agrees with the spec's optional-wrapper
stripping. -/
theorem c5_malformed_ai_response_amended_witness :
    ((generateQuizController
        ⟨"T", 5, some "The French Revolution and its causes in detail", none⟩
        "" "not json at all" 7 "q5" 10 ⟨[], [], []⟩).1
      = .serverError parseFailureMsg ∧
     (generateQuizController
        ⟨"T", 5, some "The French Revolution and its causes in detail", none⟩
        "" "not json at all" 7 "q5" 10 ⟨[], [], []⟩).2.quizzes = []) ∧
    stripCodeFences "```json\n[1]\n```" = stripCodeFencesSpec "```json\n[1]\n```" := by
  constructor
  · exact (c5_malformed_ai_response_amended
        ⟨"T", 5, some "The French Revolution and its causes in detail", none⟩
        "" "not json at all" 7 "q5" 10 ⟨[], [], []⟩).1
      (by decide) (by decide) (by decide)
      (fun elems h => by
        rw [show jsonParse (stripCodeFences "not json at all") = none from rfl] at h
        exact Option.noConfusion h)
  · exact (c5_malformed_ai_response_amended
        ⟨"T", 5, some "The French Revolution and its causes in detail", none⟩
        "" "```json\n[1]\n```" 7 "q5" 10 ⟨[], [], []⟩).2 (by decide)



/-- C9 witness: one correct submission against a one-question quiz; the
result listed by getForTaking carries the correctAnswer snapshot. -/
theorem c9_results_expose_correct_answers_witness :
    ∃ rs saved,
      getQuizForTakingController "z1"
          ⟨[⟨"z1", "T", "top", "text", none, none, [⟨"q1", "Q?", ["A", "B"], "A"⟩], 0⟩],
            [⟨"r1", "z1", 1, 1, [⟨"q1", "Q?", "A", "A", some true⟩], 1⟩], []⟩
        = .ok ⟨(⟨"z1", "T", "top", "text", none, none, [⟨"q1", "Q?", ["A", "B"], "A"⟩],
              0⟩ : Quiz)._id,
            (⟨"z1", "T", "top", "text", none, none, [⟨"q1", "Q?", ["A", "B"], "A"⟩],
              0⟩ : Quiz).title,
            (⟨"z1", "T", "top", "text", none, none, [⟨"q1", "Q?", ["A", "B"], "A"⟩],
              0⟩ : Quiz).questions.map (fun q => ⟨q._id, q.questionText, q.options⟩)⟩ rs ∧
      saved ∈ rs ∧
      saved ∈ (⟨[⟨"z1", "T", "top", "text", none, none, [⟨"q1", "Q?", ["A", "B"], "A"⟩], 0⟩],
          [⟨"r1", "z1", 1, 1, [⟨"q1", "Q?", "A", "A", some true⟩], 1⟩], []⟩ : DbState).results ∧
      saved._id = "r1" ∧
      saved.submittedAnswers.map (fun d => d.correctAnswer)
        = (⟨"z1", "T", "top", "text", none, none, [⟨"q1", "Q?", ["A", "B"], "A"⟩],
            0⟩ : Quiz).questions.map (fun q => q.correctAnswer) := by
  exact c9_results_expose_correct_answers
    ⟨[⟨"z1", "T", "top", "text", none, none, [⟨"q1", "Q?", ["A", "B"], "A"⟩], 0⟩], [], []⟩
    "z1" ⟨"z1", "T", "top", "text", none, none, [⟨"q1", "Q?", ["A", "B"], "A"⟩], 0⟩
    (some [⟨"q1", "A"⟩]) "r1" 1
    ⟨submitSuccessMsg, "r1", 1, 1, [⟨"q1", "Q?", "A", "A", some true⟩]⟩
    ⟨[⟨"z1", "T", "top", "text", none, none, [⟨"q1", "Q?", ["A", "B"], "A"⟩], 0⟩],
      [⟨"r1", "z1", 1, 1, [⟨"q1", "Q?", "A", "A", some true⟩], 1⟩], []⟩
    (by decide) (by decide)


end LMS
